import Mathlib

/-!
Shallow embedding of the multi-tenant token-tracking core of the
`coin_tracker` repository, and proofs about its claims.

The embedding covers:
* `src/storage/user_manager.py` (`UserManager`): the user registry — per-user
  active flag, global threshold, tracked tokens, per-token threshold rules and
  entry prices.  Python dicts are modelled as association lists
  (`List (String × α)`) with the usual lookup/insert/erase operations; Python
  floats are modelled as rationals (`ℚ`); file persistence and logging are
  omitted (they do not affect the returned values or the in-memory state).
* `src/tracker/token_tracker.py` (`TokenTracker`): the price-check and
  holder-check cycle bodies (`_check_price`, `_check_holders`) and the
  command-level `add_token`.  Network fetches are modelled by passing the
  fetched value (current price / holder count) as an argument.
-/

namespace CoinTracker

/-! ### Association lists standing in for Python dicts -/

/-- Lookup in an association list (Python `d.get(k)` / `d[k]`). -/
def dlookup {α : Type} : List (String × α) → String → Option α
  | [], _ => none
  | (k, v) :: rest, key => if k = key then some v else dlookup rest key

/-- Insert-or-replace in an association list (Python `d[k] = v`);
insertion order of keys is preserved, as in a Python dict. -/
def dinsert {α : Type} : List (String × α) → String → α → List (String × α)
  | [], key, val => [(key, val)]
  | (k, v) :: rest, key, val =>
    if k = key then (k, val) :: rest else (k, v) :: dinsert rest key val

/-- Delete a key from an association list (Python `del d[k]`, a no-op when the
key is absent — the source only deletes after an `in` check, so both agree). -/
def derase {α : Type} : List (String × α) → String → List (String × α)
  | [], _ => []
  | (k, v) :: rest, key => if k = key then rest else (k, v) :: derase rest key

theorem dlookup_dinsert_self {α : Type} (l : List (String × α)) (k : String) (v : α) :
    dlookup (dinsert l k v) k = some v := by
  induction l with
  | nil => simp [dinsert, dlookup]
  | cons hd tl ih =>
    obtain ⟨k', v'⟩ := hd
    by_cases h : k' = k
    · simp [dinsert, dlookup, h]
    · simp [dinsert, dlookup, h, ih]

theorem dlookup_dinsert_ne {α : Type} (l : List (String × α)) (k k' : String) (v : α)
    (h : k ≠ k') : dlookup (dinsert l k v) k' = dlookup l k' := by
  induction l with
  | nil => simp [dinsert, dlookup, h]
  | cons hd tl ih =>
    obtain ⟨k₀, v₀⟩ := hd
    by_cases h₀ : k₀ = k
    · subst h₀
      simp [dinsert, dlookup, h]
    · by_cases h₁ : k₀ = k'
      · simp [dinsert, dlookup, h₀, h₁, Ne.symm h]
      · simp [dinsert, dlookup, h₀, h₁, ih]

theorem mem_dinsert {α : Type} {l : List (String × α)} {k : String} {v : α} {p : String × α}
    (hp : p ∈ dinsert l k v) : p = (k, v) ∨ p ∈ l := by
  induction l with
  | nil => simpa [dinsert] using hp
  | cons hd tl ih =>
    obtain ⟨k₀, v₀⟩ := hd
    by_cases h₀ : k₀ = k
    · subst h₀
      simp only [dinsert, if_pos rfl] at hp
      rcases List.mem_cons.mp hp with h | h
      · exact Or.inl (by simpa using h)
      · exact Or.inr (List.mem_cons_of_mem _ h)
    · simp only [dinsert, if_neg h₀] at hp
      rcases List.mem_cons.mp hp with h | h
      · exact Or.inr (List.mem_cons.mpr (Or.inl h))
      · rcases ih h with h' | h'
        · exact Or.inl h'
        · exact Or.inr (List.mem_cons_of_mem _ h')

theorem dlookup_mem {α : Type} {l : List (String × α)} {k : String} {v : α}
    (h : dlookup l k = some v) : (k, v) ∈ l := by
  induction l with
  | nil => simp [dlookup] at h
  | cons hd tl ih =>
    obtain ⟨k₀, v₀⟩ := hd
    by_cases h₀ : k₀ = k
    · subst h₀
      simp only [dlookup, if_pos, Option.some.injEq] at h
      subst h
      exact List.mem_cons_self _ _
    · simp only [dlookup, if_neg h₀] at h
      exact List.mem_cons_of_mem _ (ih h)

/-! ### Data model (§3 of the spec, `user_manager.py`) -/

/-- A per-token threshold rule, the dict `{'value': ..., 'direction': ...}`
stored in `token_thresholds`.  The direction is kept as the raw string the
source uses (`'both'`, `'positive'`, `'negative'`). -/
structure ThresholdRule where
  value : ℚ
  direction : String
deriving DecidableEq, Repr

/-- One user record, the dict stored in `UserManager.users[user_id]`.
`registered_at` and the entry-price timestamps are opaque metadata that no
operation reads back; they are omitted.  `entryPrices` maps a token address to
the stored `'price'` field. -/
structure User where
  active : Bool
  trackedTokens : List String
  globalThreshold : ℚ
  tokenThresholds : List (String × ThresholdRule)
  entryPrices : List (String × ℚ)
deriving DecidableEq, Repr

/-- The registry state: `UserManager.users`, a dict from user id to record. -/
abbrev Registry := List (String × User)

/-- The default record created by `register_user` for a new user. -/
def defaultUser : User :=
  { active := true
    trackedTokens := []
    globalThreshold := 20
    tokenThresholds := []
    entryPrices := [] }

/-! ### Registry operations (`UserManager`, `user_manager.py`) -/

/-- Model of `UserManager.register_user` (lines 59–76): create a default record when the
user is unknown, otherwise set `active = True`; always returns `True`. -/
def register_user (users : Registry) (userId : String) : Bool × Registry :=
  match dlookup users userId with
  | none => (true, dinsert users userId defaultUser)
  | some u => (true, dinsert users userId { u with active := true })

/-- Model of `UserManager.get_user` (lines 78–80). -/
def get_user (users : Registry) (userId : String) : Option User :=
  dlookup users userId

/-- Model of `UserManager.is_user_active` (lines 82–85). -/
def is_user_active (users : Registry) (userId : String) : Bool :=
  match get_user users userId with
  | none => false
  | some u => u.active

/-- Model of `UserManager.add_token_to_user` (lines 92–109): fails when the user is
unknown or the token already tracked; otherwise appends the token and, when an
entry price is provided, records it. -/
def add_token_to_user (users : Registry) (userId tokenAddress : String)
    (entryPrice : Option ℚ) : Bool × Registry :=
  match dlookup users userId with
  | none => (false, users)
  | some u =>
    if tokenAddress ∈ u.trackedTokens then (false, users)
    else
      let u₁ := { u with trackedTokens := u.trackedTokens ++ [tokenAddress] }
      let u₂ :=
        match entryPrice with
        | some p => { u₁ with entryPrices := dinsert u₁.entryPrices tokenAddress p }
        | none => u₁
      (true, dinsert users userId u₂)

/-- Model of `UserManager.remove_token_from_user` (lines 111–129): fails when the user
is unknown or the token not tracked; otherwise removes the token and cascades
the removal to `entry_prices` and `token_thresholds`. -/
def remove_token_from_user (users : Registry) (userId tokenAddress : String) :
    Bool × Registry :=
  match dlookup users userId with
  | none => (false, users)
  | some u =>
    if tokenAddress ∈ u.trackedTokens then
      let u' := { u with
        trackedTokens := u.trackedTokens.erase tokenAddress
        entryPrices := derase u.entryPrices tokenAddress
        tokenThresholds := derase u.tokenThresholds tokenAddress }
      (true, dinsert users userId u')
    else (false, users)

/-- Model of `UserManager.get_user_tokens` (lines 131–134). -/
def get_user_tokens (users : Registry) (userId : String) : List String :=
  match get_user users userId with
  | none => []
  | some u => u.trackedTokens

/-- Model of `UserManager.set_user_global_threshold` (lines 136–143): stores the given
value unconditionally — the source performs no range validation here. -/
def set_user_global_threshold (users : Registry) (userId : String) (threshold : ℚ) :
    Bool × Registry :=
  match dlookup users userId with
  | none => (false, users)
  | some u => (true, dinsert users userId { u with globalThreshold := threshold })

/-- Model of `UserManager.set_user_token_threshold` (lines 145–159): fails when the user
is unknown or the token not tracked. -/
def set_user_token_threshold (users : Registry) (userId tokenAddress : String)
    (threshold : ℚ) (direction : String) : Bool × Registry :=
  match dlookup users userId with
  | none => (false, users)
  | some u =>
    if tokenAddress ∈ u.trackedTokens then
      (true, dinsert users userId
        { u with tokenThresholds :=
            dinsert u.tokenThresholds tokenAddress ⟨threshold, direction⟩ })
    else (false, users)

/-- Model of `UserManager.get_user_threshold` (lines 161–173).  The token argument is
optional, as in the source; the Python guard `if token_address and
token_address in ...` is truthiness-sensitive: the per-token rule is only
consulted when the token string is non-empty. -/
def get_user_threshold (users : Registry) (userId : String)
    (tokenAddress : Option String) : ThresholdRule :=
  match get_user users userId with
  | none => ⟨20, "both"⟩
  | some u =>
    match tokenAddress with
    | some t =>
      if t ≠ "" then
        match dlookup u.tokenThresholds t with
        | some rule => rule
        | none => ⟨u.globalThreshold, "both"⟩
      else ⟨u.globalThreshold, "both"⟩
    | none => ⟨u.globalThreshold, "both"⟩

/-- Model of `UserManager.get_users_tracking_token` (lines 175–181): the ids of active
users whose `tracked_tokens` contains the token, in registry order. -/
def get_users_tracking_token (users : Registry) (tokenAddress : String) : List String :=
  (users.filter (fun p => p.2.active && p.2.trackedTokens.contains tokenAddress)).map
    Prod.fst

/-- Model of `UserManager.get_entry_price` (lines 183–188). -/
def get_entry_price (users : Registry) (userId tokenAddress : String) : Option ℚ :=
  match get_user users userId with
  | none => none
  | some u => dlookup u.entryPrices tokenAddress

/-- Model of `UserManager.set_entry_price` — the *effective* definition.  The source
file defines `set_entry_price` twice; in Python the second definition
(lines 223–237) shadows the first, and it records the price for any known
user **without** checking that the token is tracked. -/
def set_entry_price (users : Registry) (userId tokenAddress : String) (price : ℚ) :
    Bool × Registry :=
  match dlookup users userId with
  | none => (false, users)
  | some u =>
    (true, dinsert users userId
      { u with entryPrices := dinsert u.entryPrices tokenAddress price })

/-- The first, shadowed definition of `UserManager.set_entry_price`
(lines 190–203): it additionally fails when the token is not tracked.  It is
dead code in Python but records the intended guard. -/
def set_entry_price_shadowed (users : Registry) (userId tokenAddress : String)
    (price : ℚ) : Bool × Registry :=
  match dlookup users userId with
  | none => (false, users)
  | some u =>
    if tokenAddress ∈ u.trackedTokens then
      (true, dinsert users userId
        { u with entryPrices := dinsert u.entryPrices tokenAddress price })
    else (false, users)

/-- Model of `UserManager.get_all_tracked_tokens` (lines 205–211): union of the tracked
tokens of active users (modelled as a deduplicated list). -/
def get_all_tracked_tokens (users : Registry) : List String :=
  ((users.filter (fun p => p.2.active)).flatMap (fun p => p.2.trackedTokens)).dedup

/-- Model of `UserManager.deactivate_user` (lines 213–221). -/
def deactivate_user (users : Registry) (userId : String) : Bool × Registry :=
  match dlookup users userId with
  | none => (false, users)
  | some u => (true, dinsert users userId { u with active := false })

/-! ### Tracking engine state (`TokenTracker`, `token_tracker.py`) -/

/-- The mutable tracker state: the registry plus the three caches set up in
`TokenTracker.__init__` — `_price_cache`, `_holder_cache` and the per-user
`_user_price_cache` (user id → token address → reference price). -/
structure TrackerState where
  users : Registry
  priceCache : List (String × ℚ)
  holderCache : List (String × Int)
  userPriceCache : List (String × List (String × ℚ))
deriving DecidableEq, Repr

/-- A dispatched per-user price alert: the fields of `alert_data` built in
`_check_price` (lines 167–180) that the embedding tracks (token metadata such
as market cap is pass-through display data and is omitted). -/
structure PriceAlert where
  userId : String
  oldPrice : ℚ
  newPrice : ℚ
  changePercent : ℚ
  entryPrice : Option ℚ
deriving DecidableEq, Repr

/-- The directional crossing test of `_check_price` (lines 156–162):
`meets_threshold` starts `False` and is set by the matching direction branch;
an unrecognised direction string leaves it `False`. -/
def meets_threshold (changePercent value : ℚ) (direction : String) : Bool :=
  if direction = "both" then decide (|changePercent| ≥ value)
  else if direction = "positive" then decide (changePercent ≥ value)
  else if direction = "negative" then decide (changePercent ≤ -value)
  else false

/-- The per-user cache write of `_check_price` lines 196–199: ensure the
user's dict exists, then set the cached reference price for the token. -/
def seed_user_price (s : TrackerState) (userId tokenAddress : String) (price : ℚ) :
    TrackerState :=
  let userMap := (dlookup s.userPriceCache userId).getD []
  { s with userPriceCache :=
      dinsert s.userPriceCache userId (dinsert userMap tokenAddress price) }

/-- The body of the per-user loop of `_check_price` (lines 143–200) for one
user.  The Python guard `if user_ref_price and user_ref_price > 0` (truthiness
plus comparison) is equivalent to: a cached value is present and is `> 0`.
When it holds, the change percentage is computed, the user's threshold rule is
resolved and the crossing test run; a crossing dispatches an alert — and, as
in the source, does **not** touch the user's cached reference price.
Otherwise the cache is seeded with the current price and no alert is sent. -/
def check_price_user (s : TrackerState) (tokenAddress : String) (currentPrice : ℚ)
    (userId : String) : TrackerState × Option PriceAlert :=
  match (dlookup s.userPriceCache userId).bind (fun m => dlookup m tokenAddress) with
  | some refPrice =>
    if refPrice > 0 then
      let changePercent := (currentPrice - refPrice) / refPrice * 100
      let rule := get_user_threshold s.users userId (some tokenAddress)
      if meets_threshold changePercent rule.value rule.direction then
        (s, some { userId := userId
                   oldPrice := refPrice
                   newPrice := currentPrice
                   changePercent := changePercent
                   entryPrice := get_entry_price s.users userId tokenAddress })
      else (s, none)
    else (seed_user_price s userId tokenAddress currentPrice, none)
  | none => (seed_user_price s userId tokenAddress currentPrice, none)

/-- Model of `TokenTracker._check_price` (lines 129–207) as a pure cycle step for one
token.  The fetched `PriceSample` is passed in as `currentPrice`; persistence
and logging are omitted.  The per-user loop runs over
`get_users_tracking_token` in order, threading the state; afterwards the
shared `_price_cache` entry for the token is updated (line 202).  Returns the
new state and the dispatched per-user alerts in dispatch order. -/
def check_price (s : TrackerState) (tokenAddress : String) (currentPrice : ℚ) :
    TrackerState × List PriceAlert :=
  let step := fun (acc : TrackerState × List PriceAlert) (userId : String) =>
    let res := check_price_user acc.1 tokenAddress currentPrice userId
    (res.1, acc.2 ++ res.2.toList)
  let res := (get_users_tracking_token s.users tokenAddress).foldl step (s, [])
  ({ res.1 with priceCache := dinsert res.1.priceCache tokenAddress currentPrice },
   res.2)

/-- Model of `TokenTracker._check_holders` (lines 209–275) as a pure cycle step for one
token: the fetched holder count is passed in as `newCount`.  When a previous
count is cached and differs, the delta and (for a positive old count) the
percentage delta are computed; if either magnitude reaches 10 the alert is
fanned out to every active user tracking the token.  Finally the shared
`_holder_cache` entry is updated.  Returns the new state and the ids of the
users the holder alert was sent to (empty when no alert fired). -/
def check_holders (s : TrackerState) (tokenAddress : String) (newCount : Int) :
    TrackerState × List String :=
  let recipients :=
    match dlookup s.holderCache tokenAddress with
    | some oldCount =>
      if oldCount ≠ newCount then
        let change := newCount - oldCount
        let changePercent : ℚ :=
          if oldCount > 0 then (change : ℚ) / (oldCount : ℚ) * 100 else 0
        if |change| ≥ 10 ∨ |changePercent| ≥ 10 then
          get_users_tracking_token s.users tokenAddress
        else []
      else []
    | none => []
  ({ s with holderCache := dinsert s.holderCache tokenAddress newCount }, recipients)

/-- Model of `TokenTracker.add_token` (lines 277–318), the command-level add.  The
entry-price fetch is modelled by the argument `fetchedPrice` (`none` when the
gateway call failed, as the source then leaves `entry_price = None`).  On a
successful registry add, the user's price cache is seeded with the entry price
when that price is truthy (Python `if entry_price:` — non-`None` and non-zero).
Confirmation messages are omitted. -/
def tracker_add_token (s : TrackerState) (userId tokenAddress : String)
    (fetchedPrice : Option ℚ) : Bool × TrackerState :=
  if is_user_active s.users userId then
    if tokenAddress ∈ get_user_tokens s.users userId then (false, s)
    else
      let res := add_token_to_user s.users userId tokenAddress fetchedPrice
      if res.1 then
        let s₁ := { s with users := res.2 }
        let s₂ :=
          match fetchedPrice with
          | some p => if p ≠ 0 then seed_user_price s₁ userId tokenAddress p else s₁
          | none => s₁
        (true, s₂)
      else (false, { s with users := res.2 })
  else (false, s)

/-! ### Sequences of registry operations -/

/-- One state-mutating `UserManager` call, for reasoning about arbitrary
sequences of registry operations. -/
inductive RegOp where
  | register (userId : String)
  | deactivate (userId : String)
  | addToken (userId tokenAddress : String) (entryPrice : Option ℚ)
  | removeToken (userId tokenAddress : String)
  | setGlobalThreshold (userId : String) (value : ℚ)
  | setTokenThreshold (userId tokenAddress : String) (value : ℚ) (direction : String)
  | setEntryPrice (userId tokenAddress : String) (price : ℚ)
deriving DecidableEq, Repr

/-- Apply one registry operation (the result flag is discarded; the operations
return their new state in the second component). -/
def applyOp (users : Registry) : RegOp → Registry
  | .register userId => (register_user users userId).2
  | .deactivate userId => (deactivate_user users userId).2
  | .addToken userId tokenAddress entryPrice =>
      (add_token_to_user users userId tokenAddress entryPrice).2
  | .removeToken userId tokenAddress =>
      (remove_token_from_user users userId tokenAddress).2
  | .setGlobalThreshold userId value =>
      (set_user_global_threshold users userId value).2
  | .setTokenThreshold userId tokenAddress value direction =>
      (set_user_token_threshold users userId tokenAddress value direction).2
  | .setEntryPrice userId tokenAddress price =>
      (set_entry_price users userId tokenAddress price).2

/-- Apply a sequence of registry operations from left to right. -/
def applyOps (users : Registry) (ops : List RegOp) : Registry :=
  ops.foldl applyOp users

/-- A registry operation whose `setGlobalThreshold` value lies in the spec's
`(0, 100]` range (any other operation is unrestricted). -/
def inRangeOp : RegOp → Bool
  | .setGlobalThreshold _ value => decide (0 < value) && decide (value ≤ 100)
  | _ => true

/-- The spec's global-threshold invariant: every registered user's
`globalThreshold` lies in `(0, 100]`. -/
def thresholdInvariant (users : Registry) : Prop :=
  ∀ p ∈ users, 0 < p.2.globalThreshold ∧ p.2.globalThreshold ≤ 100

/-! ### Concrete states used to evaluate the code on specific inputs -/

/-- A registered active user tracking token `"tok"` with a per-token rule
`{value := 15, direction := "negative"}` and entry price 100. -/
def aliceUser : User :=
  { active := true
    trackedTokens := ["tok"]
    globalThreshold := 20
    tokenThresholds := [("tok", ⟨15, "negative"⟩)]
    entryPrices := [("tok", 100)] }

/-- A tracker state in which `"alice"` tracks `"tok"` with cached reference
price 100 and a cached holder count of 1000. -/
def demoState : TrackerState :=
  { users := [("alice", aliceUser)]
    priceCache := [("tok", 100)]
    holderCache := [("tok", 1000)]
    userPriceCache := [("alice", [("tok", 100)])] }

/-- Like `demoState` but with the user's cached reference price for `"tok"`
equal to 0. -/
def zeroRefState : TrackerState :=
  { users := [("alice", aliceUser)]
    priceCache := []
    holderCache := []
    userPriceCache := [("alice", [("tok", 0)])] }

/-- The registry after `register_user "alice"` followed by
`set_entry_price "alice" "tok" 1` — the token `"tok"` was never added. -/
def entryWithoutTrackingUsers : Registry :=
  applyOps [] [.register "alice", .setEntryPrice "alice" "tok" 1]

/-- The registry after `register_user "alice"` followed by
`set_user_global_threshold "alice" 150`. -/
def overThresholdUsers : Registry :=
  applyOps [] [.register "alice", .setGlobalThreshold "alice" 150]

/-! ## Helper lemmas -/

theorem meets_threshold_iff (changePercent value : ℚ) (direction : String) :
    meets_threshold changePercent value direction = true ↔
      (direction = "both" ∧ |changePercent| ≥ value) ∨
      (direction = "positive" ∧ changePercent ≥ value) ∨
      (direction = "negative" ∧ changePercent ≤ -value) := by
  by_cases h₁ : direction = "both"
  · simp [meets_threshold, h₁]
  · by_cases h₂ : direction = "positive"
    · simp [meets_threshold, h₁, h₂]
    · by_cases h₃ : direction = "negative"
      · simp [meets_threshold, h₁, h₂, h₃]
      · simp [meets_threshold, h₁, h₂, h₃]

theorem check_price_user_fires (s : TrackerState) (tokenAddress : String)
    (currentPrice : ℚ) (userId : String) (refPrice : ℚ)
    (href : (dlookup s.userPriceCache userId).bind (fun m => dlookup m tokenAddress) =
      some refPrice)
    (hr : 0 < refPrice) :
    (check_price_user s tokenAddress currentPrice userId).2.isSome =
      meets_threshold ((currentPrice - refPrice) / refPrice * 100)
        (get_user_threshold s.users userId (some tokenAddress)).value
        (get_user_threshold s.users userId (some tokenAddress)).direction := by
  simp only [check_price_user, href]
  rw [if_pos hr]
  by_cases hb : meets_threshold ((currentPrice - refPrice) / refPrice * 100)
      (get_user_threshold s.users userId (some tokenAddress)).value
      (get_user_threshold s.users userId (some tokenAddress)).direction = true
  · rw [if_pos hb, hb]
    rfl
  · rw [if_neg hb]
    simp [Bool.not_eq_true] at hb
    rw [hb]
    rfl

/-! ## Claims -/

/-- Claim C2: with a cached reference price `r > 0` and current price `c`, the
price-loop crossing evaluation for a user dispatches an alert exactly when,
for the resolved threshold rule `{value, direction}` and
`changePercent = (c - r) / r * 100`: `direction = "both"` and
`|changePercent| ≥ value`, or `direction = "positive"` and
`changePercent ≥ value`, or `direction = "negative"` and
`changePercent ≤ -value`. -/
theorem c2_crossing_evaluation (s : TrackerState) (tokenAddress userId : String)
    (r c : ℚ)
    (href : (dlookup s.userPriceCache userId).bind (fun m => dlookup m tokenAddress) =
      some r)
    (hr : 0 < r) :
    (check_price_user s tokenAddress c userId).2.isSome = true ↔
      ((get_user_threshold s.users userId (some tokenAddress)).direction = "both" ∧
        |(c - r) / r * 100| ≥ (get_user_threshold s.users userId (some tokenAddress)).value) ∨
      ((get_user_threshold s.users userId (some tokenAddress)).direction = "positive" ∧
        (c - r) / r * 100 ≥ (get_user_threshold s.users userId (some tokenAddress)).value) ∨
      ((get_user_threshold s.users userId (some tokenAddress)).direction = "negative" ∧
        (c - r) / r * 100 ≤ -(get_user_threshold s.users userId (some tokenAddress)).value) := by
  rw [check_price_user_fires s tokenAddress c userId r href hr]
  rw [meets_threshold_iff]

/-- Witness for C2: in `demoState`, `"alice"` has reference price 100 for
`"tok"` and the per-token rule `{15, "negative"}`; with current price 80
(`changePercent = -20`) the evaluation fires. -/
theorem c2_crossing_evaluation_witness :
    ((dlookup demoState.userPriceCache "alice").bind (fun m => dlookup m "tok") =
      some 100) ∧
    (0 : ℚ) < 100 ∧
    ((check_price_user demoState "tok" 80 "alice").2.isSome = true ↔
      ((get_user_threshold demoState.users "alice" (some "tok")).direction = "both" ∧
        |((80 : ℚ) - 100) / 100 * 100| ≥ (get_user_threshold demoState.users "alice" (some "tok")).value) ∨
      ((get_user_threshold demoState.users "alice" (some "tok")).direction = "positive" ∧
        ((80 : ℚ) - 100) / 100 * 100 ≥ (get_user_threshold demoState.users "alice" (some "tok")).value) ∨
      ((get_user_threshold demoState.users "alice" (some "tok")).direction = "negative" ∧
        ((80 : ℚ) - 100) / 100 * 100 ≤ -(get_user_threshold demoState.users "alice" (some "tok")).value)) :=
  ⟨by decide, by norm_num,
   c2_crossing_evaluation demoState "tok" "alice" 100 80 (by decide) (by norm_num)⟩

/-- Claim C7: re-registering an already-registered user succeeds and changes nothing
but the `active` flag, which is `true` afterwards: the stored record equals
the old one with `active := true`, so `trackedTokens`, `entryPrices`,
`tokenThresholds` (and `globalThreshold`) are unchanged. -/
theorem c7_register_idempotent (users : Registry) (userId : String) (u : User)
    (hu : get_user users userId = some u) :
    (register_user users userId).1 = true ∧
    get_user (register_user users userId).2 userId = some { u with active := true } := by
  have hd : dlookup users userId = some u := hu
  constructor
  · simp only [register_user, hd]
  · simp only [register_user, hd, get_user]
    exact dlookup_dinsert_self users userId { u with active := true }

/-- Witness for C7: re-registering `"alice"` in `demoState.users`. -/
theorem c7_register_idempotent_witness :
    get_user demoState.users "alice" = some aliceUser ∧
    (register_user demoState.users "alice").1 = true ∧
    get_user (register_user demoState.users "alice").2 "alice" =
      some { aliceUser with active := true } :=
  ⟨by decide, (c7_register_idempotent demoState.users "alice" aliceUser (by decide)).1,
   (c7_register_idempotent demoState.users "alice" aliceUser (by decide)).2⟩

/-- Claim C8: for a registered user and a (non-empty, per the spec's TokenAddress
data model) token: with no per-token rule, `get_user_threshold` returns
`{value := globalThreshold, direction := "both"}`; with an explicit per-token
rule, that rule is returned. -/
theorem c8_threshold_resolution (users : Registry) (userId t : String) (u : User)
    (hu : get_user users userId = some u) (ht : t ≠ "") :
    (dlookup u.tokenThresholds t = none →
      get_user_threshold users userId (some t) = ⟨u.globalThreshold, "both"⟩) ∧
    (∀ rule, dlookup u.tokenThresholds t = some rule →
      get_user_threshold users userId (some t) = rule) := by
  constructor
  · intro hnone
    simp only [get_user_threshold, hu, hnone, if_pos ht]
  · intro rule hrule
    simp only [get_user_threshold, hu, hrule, if_pos ht]

/-- Witness for C8: `"alice"` has the explicit rule `{15, "negative"}` for
`"tok"`, and that rule is what resolution returns. -/
theorem c8_threshold_resolution_witness :
    get_user demoState.users "alice" = some aliceUser ∧
    "tok" ≠ "" ∧
    ((dlookup aliceUser.tokenThresholds "tok" = none →
      get_user_threshold demoState.users "alice" (some "tok") =
        ⟨aliceUser.globalThreshold, "both"⟩) ∧
    (∀ rule, dlookup aliceUser.tokenThresholds "tok" = some rule →
      get_user_threshold demoState.users "alice" (some "tok") = rule)) :=
  ⟨by decide, by decide,
   c8_threshold_resolution demoState.users "alice" "tok" aliceUser (by decide) (by decide)⟩

/-- Claim C10: for a user id absent from the registry, `get_user_threshold` does not
fail and returns the default rule `{value := 20, direction := "both"}`. -/
theorem c10_unknown_user_default_threshold (users : Registry) (userId t : String)
    (hu : get_user users userId = none) :
    get_user_threshold users userId (some t) = ⟨20, "both"⟩ := by
  simp only [get_user_threshold, hu]

/-- Witness for C10: `"bob"` is not registered in `demoState.users`. -/
theorem c10_unknown_user_default_threshold_witness :
    get_user demoState.users "bob" = none ∧
    get_user_threshold demoState.users "bob" (some "tok") = ⟨20, "both"⟩ :=
  ⟨by decide, c10_unknown_user_default_threshold demoState.users "bob" "tok" (by decide)⟩

/-- Claim C6: adding a token the user already tracks fails — `add_token_to_user`
returns `false` with the registry unchanged (so the user's whole record:
`trackedTokens`, `tokenThresholds`, `entryPrices`, `active`, `globalThreshold`
is untouched), and the command-level `TokenTracker.add_token` likewise returns
`false` with the tracker state unchanged. -/
theorem c6_add_duplicate_token_rejected (s : TrackerState) (userId tokenAddress : String)
    (u : User) (ep fetched : Option ℚ)
    (hu : get_user s.users userId = some u) (ht : tokenAddress ∈ u.trackedTokens) :
    add_token_to_user s.users userId tokenAddress ep = (false, s.users) ∧
    tracker_add_token s userId tokenAddress fetched = (false, s) := by
  have hd : dlookup s.users userId = some u := hu
  constructor
  · simp only [add_token_to_user, hd, if_pos ht]
  · simp only [tracker_add_token, is_user_active, get_user_tokens, hu]
    cases hact : u.active
    · simp
    · simp [ht]

/-- Witness for C6: `"alice"` already tracks `"tok"` in `demoState`. -/
theorem c6_add_duplicate_token_rejected_witness :
    get_user demoState.users "alice" = some aliceUser ∧
    "tok" ∈ aliceUser.trackedTokens ∧
    add_token_to_user demoState.users "alice" "tok" (some 7) = (false, demoState.users) ∧
    tracker_add_token demoState "alice" "tok" (some 7) = (false, demoState) :=
  ⟨by decide, by decide,
   (c6_add_duplicate_token_rejected demoState "alice" "tok" aliceUser (some 7) (some 7)
     (by decide) (by decide)).1,
   (c6_add_duplicate_token_rejected demoState "alice" "tok" aliceUser (some 7) (some 7)
     (by decide) (by decide)).2⟩

/-- Claim C1: in `demoState`, `"alice"` has reference price 100 and rule
`{15, "negative"}` for `"tok"`; at current price 80 the crossing fires
(change −20% ≤ −15%) and an alert is dispatched to `"alice"`, but — contrary
to the spec's rebase-on-alert step — the user's cached reference price is
left at 100 instead of being rebased to 80 (only the shared `_price_cache`
is updated). -/
theorem c1_alert_fires_without_rebase :
    (check_price demoState "tok" 80).2.map PriceAlert.userId = ["alice"] ∧
    (check_price demoState "tok" 80).1.userPriceCache = [("alice", [("tok", 100)])] ∧
    (check_price demoState "tok" 80).1.priceCache = [("tok", 80)] := by
  have husers : get_users_tracking_token demoState.users "tok" = ["alice"] := by decide
  have href : (dlookup demoState.userPriceCache "alice").bind (fun m => dlookup m "tok") =
      some (100 : ℚ) := by decide
  have hrule : get_user_threshold demoState.users "alice" (some "tok") =
      ⟨15, "negative"⟩ := by decide
  have hentry : get_entry_price demoState.users "alice" "tok" = some (100 : ℚ) := by decide
  have h100 : (0 : ℚ) < 100 := by norm_num
  have harith : ((80 : ℚ) - 100) / 100 * 100 = -20 := by norm_num
  have hmeet : meets_threshold (((80 : ℚ) - 100) / 100 * 100) (15 : ℚ) "negative" = true := by
    rw [harith]; decide
  have hmeet' : meets_threshold ((80 : ℚ) - 100) (15 : ℚ) "negative" = true := by
    rw [show ((80 : ℚ) - 100) = -20 from by norm_num]; decide
  refine ⟨?_, ?_, ?_⟩ <;>
    (simp [check_price, check_price_user, husers, href, hrule, hmeet, hmeet', hentry, h100];
     try decide)

/-- Claim C3: the `UserManager` source defines `set_entry_price` twice; the second
definition shadows the first and drops the tracked-token check.  Registering
`"alice"` and then calling `set_entry_price "alice" "tok" 1` therefore records
an entry price for `"tok"` even though `"tok"` is not in `trackedTokens`,
violating the cascade invariant. -/
theorem c3_entry_price_without_tracking :
    get_user_tokens entryWithoutTrackingUsers "alice" = [] ∧
    get_entry_price entryWithoutTrackingUsers "alice" "tok" = some 1 := by
  constructor <;> decide

/-- Claim C4 as stated, counterexample: with `"alice"`'s cached reference price
for `"tok"` equal to 0, running the price check at current price 50 indeed
divides by nothing and dispatches no alert — but the user is *not* merely
skipped: the zero reference is overwritten with the current price 50 (the
code's truthiness guard sends a zero reference down the "first observation"
seeding branch), so per-user processing does happen that cycle. -/
theorem c4_zero_reference_counterexample :
    (check_price zeroRefState "tok" 50).2 = [] ∧
    (check_price zeroRefState "tok" 50).1.userPriceCache = [("alice", [("tok", 50)])] ∧
    (check_price zeroRefState "tok" 50).1.userPriceCache ≠ zeroRefState.userPriceCache := by
  refine ⟨?_, ?_, ?_⟩ <;> decide

/-- Claim C4 amended: when a user's cached reference price for a token is 0, the
per-user price evaluation dispatches no alert and never reaches the
`changePercent` division; instead of leaving the user untouched, it re-seeds
the user's cached reference price with the current price, exactly as for a
user with no cached reference. -/
theorem c4_zero_reference_no_alert_reseeds (s : TrackerState)
    (tokenAddress userId : String) (currentPrice : ℚ)
    (href : (dlookup s.userPriceCache userId).bind (fun m => dlookup m tokenAddress) =
      some 0) :
    (check_price_user s tokenAddress currentPrice userId).2 = none ∧
    (dlookup (check_price_user s tokenAddress currentPrice userId).1.userPriceCache
        userId).bind (fun m => dlookup m tokenAddress) = some currentPrice := by
  simp only [check_price_user, href]
  rw [if_neg (by norm_num : ¬(0 : ℚ) > 0)]
  refine ⟨rfl, ?_⟩
  simp only [seed_user_price, dlookup_dinsert_self, Option.some_bind]

/-- Witness for C4 (amended): `zeroRefState` with current price 50. -/
theorem c4_zero_reference_no_alert_reseeds_witness :
    ((dlookup zeroRefState.userPriceCache "alice").bind (fun m => dlookup m "tok") =
      some 0) ∧
    (check_price_user zeroRefState "tok" 50 "alice").2 = none ∧
    (dlookup (check_price_user zeroRefState "tok" 50 "alice").1.userPriceCache
        "alice").bind (fun m => dlookup m "tok") = some 50 :=
  ⟨by decide,
   (c4_zero_reference_no_alert_reseeds zeroRefState "tok" "alice" 50 (by decide)).1,
   (c4_zero_reference_no_alert_reseeds zeroRefState "tok" "alice" 50 (by decide)).2⟩

/-- Claim C5: with a cached previous holder count `oldCount > 0` and a newly fetched
`newCount`, the holder check fans an alert out to exactly the active users
tracking the token when `|newCount - oldCount| ≥ 10` **or**
`|(newCount - oldCount) / oldCount * 100| ≥ 10`, and to nobody otherwise. -/
theorem c5_holder_alert_iff (s : TrackerState) (tokenAddress : String)
    (oldCount newCount : Int)
    (hold : dlookup s.holderCache tokenAddress = some oldCount)
    (hpos : 0 < oldCount) :
    (check_holders s tokenAddress newCount).2 =
      if 10 ≤ |newCount - oldCount| ∨
          10 ≤ |((newCount - oldCount : Int) : ℚ) / (oldCount : ℚ) * 100| then
        get_users_tracking_token s.users tokenAddress
      else [] := by
  simp only [check_holders, hold]
  by_cases he : oldCount = newCount
  · subst he
    rw [if_neg (by simp)]
    rw [if_neg (by norm_num)]
  · rw [if_pos he, if_pos hpos]

/-- Witness for C5: `demoState` caches 1000 holders for `"tok"`; a new count
of 1120 (delta +120, +12%) produces an alert to `["alice"]`. -/
theorem c5_holder_alert_iff_witness :
    dlookup demoState.holderCache "tok" = some 1000 ∧
    (0 : Int) < 1000 ∧
    (check_holders demoState "tok" 1120).2 =
      (if 10 ≤ |(1120 - 1000 : Int)| ∨
          10 ≤ |(((1120 : Int) - 1000 : Int) : ℚ) / ((1000 : Int) : ℚ) * 100| then
        get_users_tracking_token demoState.users "tok"
      else []) :=
  ⟨by decide, by decide,
   c5_holder_alert_iff demoState "tok" 1000 1120 (by decide) (by decide)⟩

/-- Claim C9 as stated, counterexample: `set_user_global_threshold` stores its
argument without range validation, so the registry sequence
`register "alice"; setGlobalThreshold "alice" 150` leaves `"alice"` with
`globalThreshold = 150`, outside `(0, 100]`. -/
theorem c9_threshold_escapes_range :
    (get_user overThresholdUsers "alice").map User.globalThreshold = some 150 ∧
    ¬ thresholdInvariant overThresholdUsers := by
  constructor
  · decide
  · intro h
    have hm : (("alice" : String),
        ({ active := true, trackedTokens := [], globalThreshold := 150,
           tokenThresholds := [], entryPrices := [] } : User)) ∈ overThresholdUsers := by
      decide
    have := (h _ hm).2
    norm_num at this

theorem thresholdInvariant_dinsert {users : Registry} {userId : String} {u : User}
    (hinv : thresholdInvariant users) (h₁ : 0 < u.globalThreshold)
    (h₂ : u.globalThreshold ≤ 100) : thresholdInvariant (dinsert users userId u) := by
  intro p hp
  rcases mem_dinsert hp with h | h
  · subst h; exact ⟨h₁, h₂⟩
  · exact hinv p h

theorem applyOp_thresholdInvariant (users : Registry) (op : RegOp)
    (hinv : thresholdInvariant users) (hop : inRangeOp op = true) :
    thresholdInvariant (applyOp users op) := by
  cases op with
  | register userId =>
    rcases hd : dlookup users userId with _ | u
    · simp only [applyOp, register_user, hd]
      exact thresholdInvariant_dinsert hinv (by norm_num [defaultUser])
        (by norm_num [defaultUser])
    · simp only [applyOp, register_user, hd]
      have hb := hinv _ (dlookup_mem hd)
      exact thresholdInvariant_dinsert hinv hb.1 hb.2
  | deactivate userId =>
    rcases hd : dlookup users userId with _ | u
    · simpa only [applyOp, deactivate_user, hd] using hinv
    · simp only [applyOp, deactivate_user, hd]
      have hb := hinv _ (dlookup_mem hd)
      exact thresholdInvariant_dinsert hinv hb.1 hb.2
  | addToken userId tokenAddress entryPrice =>
    rcases hd : dlookup users userId with _ | u
    · simpa only [applyOp, add_token_to_user, hd] using hinv
    · have hb := hinv _ (dlookup_mem hd)
      by_cases hmem : tokenAddress ∈ u.trackedTokens
      · simpa only [applyOp, add_token_to_user, hd, if_pos hmem] using hinv
      · rcases entryPrice with _ | p
        · simp only [applyOp, add_token_to_user, hd, if_neg hmem]
          exact thresholdInvariant_dinsert hinv hb.1 hb.2
        · simp only [applyOp, add_token_to_user, hd, if_neg hmem]
          exact thresholdInvariant_dinsert hinv hb.1 hb.2
  | removeToken userId tokenAddress =>
    rcases hd : dlookup users userId with _ | u
    · simpa only [applyOp, remove_token_from_user, hd] using hinv
    · have hb := hinv _ (dlookup_mem hd)
      by_cases hmem : tokenAddress ∈ u.trackedTokens
      · simp only [applyOp, remove_token_from_user, hd, if_pos hmem]
        exact thresholdInvariant_dinsert hinv hb.1 hb.2
      · simpa only [applyOp, remove_token_from_user, hd, if_neg hmem] using hinv
  | setGlobalThreshold userId value =>
    simp only [inRangeOp, Bool.and_eq_true, decide_eq_true_eq] at hop
    rcases hd : dlookup users userId with _ | u
    · simpa only [applyOp, set_user_global_threshold, hd] using hinv
    · simp only [applyOp, set_user_global_threshold, hd]
      exact thresholdInvariant_dinsert hinv hop.1 hop.2
  | setTokenThreshold userId tokenAddress value direction =>
    rcases hd : dlookup users userId with _ | u
    · simpa only [applyOp, set_user_token_threshold, hd] using hinv
    · have hb := hinv _ (dlookup_mem hd)
      by_cases hmem : tokenAddress ∈ u.trackedTokens
      · simp only [applyOp, set_user_token_threshold, hd, if_pos hmem]
        exact thresholdInvariant_dinsert hinv hb.1 hb.2
      · simpa only [applyOp, set_user_token_threshold, hd, if_neg hmem] using hinv
  | setEntryPrice userId tokenAddress price =>
    rcases hd : dlookup users userId with _ | u
    · simpa only [applyOp, set_entry_price, hd] using hinv
    · simp only [applyOp, set_entry_price, hd]
      have hb := hinv _ (dlookup_mem hd)
      exact thresholdInvariant_dinsert hinv hb.1 hb.2

theorem applyOps_thresholdInvariant (ops : List RegOp) :
    ∀ users, thresholdInvariant users → (∀ op ∈ ops, inRangeOp op = true) →
      thresholdInvariant (applyOps users ops) := by
  induction ops with
  | nil => intro users hinv _; simpa [applyOps] using hinv
  | cons op rest ih =>
    intro users hinv hall
    have h₁ : inRangeOp op = true := hall op (List.mem_cons_self _ _)
    have h₂ : ∀ o ∈ rest, inRangeOp o = true :=
      fun o ho => hall o (List.mem_cons_of_mem _ ho)
    simpa [applyOps] using
      ih (applyOp users op) (applyOp_thresholdInvariant users op hinv h₁) h₂

/-- Claim C9 amended: starting from the empty registry, after any sequence of
registry operations in which every `setGlobalThreshold` call supplies a value
in `(0, 100]` (the range the command layer enforces before calling the
registry), every registered user's `globalThreshold` is in `(0, 100]`.  The
registry itself performs no validation, so the restriction on the supplied
values cannot be dropped. -/
theorem c9_threshold_invariant_for_in_range_ops (ops : List RegOp)
    (h : ∀ op ∈ ops, inRangeOp op = true) :
    thresholdInvariant (applyOps [] ops) :=
  applyOps_thresholdInvariant ops []
    (by intro p hp; exact absurd hp (List.not_mem_nil p)) h

/-- Witness for C9 (amended): registering `"alice"` and setting her global
threshold to 50 keeps every threshold in `(0, 100]`. -/
theorem c9_threshold_invariant_for_in_range_ops_witness :
    (∀ op ∈ ([.register "alice", .setGlobalThreshold "alice" 50] : List RegOp),
      inRangeOp op = true) ∧
    thresholdInvariant
      (applyOps [] [.register "alice", .setGlobalThreshold "alice" 50]) :=
  ⟨by decide,
   c9_threshold_invariant_for_in_range_ops
     [.register "alice", .setGlobalThreshold "alice" 50] (by decide)⟩

end CoinTracker
